import Mathlib

/- Shallow embedding of the tradingview-chart-service repository.

   Source files embedded:
   - src/main.py                      (standalone chart-capture FastAPI service)
   - src/app/main.py                  (bot FastAPI front door)
   - src/app/services/trading_bot.py  (TradingBot: subscribers, sentiment, dispatch, callbacks)
   - src/services/chart_service.py    (ChartService stub used by the bot)

   External effects (Redis, Supabase, OpenAI, Telegram, Selenium) are modelled as
   explicit environment values passed to each function. An exception raised by the
   Python code is modelled as an explicit error result, or as a field of the result
   recording that an exception escaped to the caller. Machine bytes are modelled as
   `List Nat`; Python byte/str truthiness (empty is falsy) is modelled explicitly
   at each use site. -/

-- ===========================================================================
-- Section A: src/main.py — the standalone chart capture service
-- ===========================================================================

/-- Behaviour of the external world during one iteration of the retry loop of
`capture_tradingview_chart` (src/main.py lines 74-152): either `setup_driver()`
raises (outer `except`, no browser launched), or the browser is launched and one
of the inner steps (`driver.get`, the wait for `chart-container`, the declutter
script, the screenshot) raises (inner `except`, `finally` quits the driver), or
every step succeeds and the screenshot bytes are produced. -/
inductive AttemptOutcome where
  | setupFail
  | captureFail
  | success (shot : List Nat)
deriving Repr, DecidableEq

/-- True when the attempt launched a browser (i.e. `setup_driver()` succeeded). -/
def isLaunch : AttemptOutcome → Bool
  | AttemptOutcome.setupFail => false
  | AttemptOutcome.captureFail => true
  | AttemptOutcome.success _ => true

/-- True when the attempt produced a screenshot. -/
def isSuccess : AttemptOutcome → Bool
  | AttemptOutcome.success _ => true
  | AttemptOutcome.setupFail => false
  | AttemptOutcome.captureFail => false

/-- Number of attempts in the list that launched a browser. -/
def countLaunches (l : List AttemptOutcome) : Nat :=
  l.countP isLaunch

/-- Observable side effects of `capture_tradingview_chart`: how many loop
iterations (= `setup_driver()` invocations) ran, how many browsers were actually
launched, how many times `driver.quit()` was invoked, and the URL built on each
iteration. -/
structure CaptureTrace where
  attempts : Nat
  launches : Nat
  quits : Nat
  urls : List String
deriving Repr, DecidableEq

/-- Characters kept verbatim by `urllib.parse.quote` with the default
`safe="/"`: ASCII letters, digits, and `_ . - ~ /`. -/
def isUrlSafe (c : Char) : Bool :=
  (c.isAlpha && c.toNat < 128) || c.isDigit || c = '_' || c = '.' || c = '-' || c = '~' || c = '/'

/-- Uppercase hexadecimal digit for `n < 16`. -/
def hexDigitChar (n : Nat) : Char :=
  if n < 10 then Char.ofNat (48 + n) else Char.ofNat (55 + n)

/-- Percent-encoding of a single byte, e.g. 58 becomes "%3A". -/
def quoteByte (b : Nat) : String :=
  "%" ++ String.singleton (hexDigitChar (b / 16)) ++ String.singleton (hexDigitChar (b % 16))

/-- UTF-8 bytes of a character. -/
def utf8Bytes (c : Char) : List Nat :=
  let n := c.toNat
  if n < 0x80 then [n]
  else if n < 0x800 then [0xC0 + n / 0x40, 0x80 + n % 0x40]
  else if n < 0x10000 then
    [0xE0 + n / 0x1000, 0x80 + (n / 0x40) % 0x40, 0x80 + n % 0x40]
  else
    [0xF0 + n / 0x40000, 0x80 + (n / 0x1000) % 0x40, 0x80 + (n / 0x40) % 0x40, 0x80 + n % 0x40]

/-- Model of `urllib.parse.quote` (default safe set): safe characters are kept,
every other character is percent-encoded byte by byte. -/
def urlQuote (s : String) : String :=
  String.join (s.data.map fun c =>
    if isUrlSafe c then String.singleton c
    else String.join ((utf8Bytes c).map quoteByte))

/-- The TradingView URL built at src/main.py lines 77-78: it embeds only the
exchange-prefixed symbol (`FX:{symbol}`), never the interval or the theme. -/
def tvUrl (symbol : String) : String :=
  "https://www.tradingview.com/chart/?symbol=" ++ urlQuote ("FX:" ++ symbol)

/-- The retry loop of `capture_tradingview_chart` (src/main.py lines 74-154).
The list holds the world's behaviour for each remaining attempt. Each iteration
builds the URL, runs `setup_driver()` (counted in `attempts`), and on launch
failure retries; on an inner failure the `finally` block quits the driver and the
loop retries; on success the screenshot is returned after the driver is quit.
In the source, an inner/outer failure on the last attempt returns `(None, False)`
directly and a loop that runs out of attempts falls through to the final
`return None, False` (line 154); both produce the same value, so both are the
`[]` case here. -/
def captureGo (symbol : String) :
    List AttemptOutcome → CaptureTrace → (Option (List Nat) × Bool) × CaptureTrace
  | [], t => ((none, false), t)
  | o :: rest, t =>
    let t1 : CaptureTrace :=
      { t with attempts := t.attempts + 1, urls := t.urls ++ [tvUrl symbol] }
    match o with
    | AttemptOutcome.setupFail => captureGo symbol rest t1
    | AttemptOutcome.captureFail =>
        captureGo symbol rest
          { t1 with launches := t1.launches + 1, quits := t1.quits + 1 }
    | AttemptOutcome.success shot =>
        ((some shot, true), { t1 with launches := t1.launches + 1, quits := t1.quits + 1 })

/-- `capture_tradingview_chart(symbol, interval, theme, max_retries)`
(src/main.py line 72). `world i` is the behaviour of attempt `i` of the
`for attempt in range(max_retries)` loop. -/
def capture_tradingview_chart (symbol interval theme : String) (max_retries : Nat)
    (world : Nat → AttemptOutcome) : (Option (List Nat) × Bool) × CaptureTrace :=
  captureGo symbol ((List.range max_retries).map world) ⟨0, 0, 0, []⟩

/-- The `GET /chart` endpoint (src/main.py lines 156-173): calls the capture with
the default `max_retries = 2`; answers 200 with the PNG bytes when
`success and screenshot` is truthy (non-None, non-empty), otherwise 500. -/
def get_chart (symbol interval theme : String) (world : Nat → AttemptOutcome) :
    Nat × Option (List Nat) :=
  match (capture_tradingview_chart symbol interval theme 2 world).1 with
  | (some shot, true) => if shot = [] then (500, none) else (200, some shot)
  | (some _, false) => (500, none)
  | (none, _) => (500, none)

-- ===========================================================================
-- Section B: src/app/main.py — the bot HTTP front door
-- ===========================================================================

/-- Outcomes of the probes run by the bot `/health` endpoint
(src/app/main.py lines 127-175). A `false` Ok-flag means the probed call raised. -/
structure HealthEnv where
  supabaseOk : Bool
  redisOk : Bool
  telegramRaises : Bool
  telegramBotTruthy : Bool
  outerOk : Bool
  envRedisUrl : Bool
  envSupabaseUrl : Bool
  envBotToken : Bool
deriving Repr, DecidableEq

/-- The JSON object plus HTTP status produced by `/health`. `services` and
`environment` are `none` on the outer `except` path, which returns only
status plus a message. -/
structure HealthReport where
  code : Nat
  status : String
  services : Option (String × String × String)
  environment : Option (Bool × Bool × Bool)
deriving Repr, DecidableEq

/-- `health_check` (src/app/main.py lines 127-175): each probe runs in its own
`try`, mapping a raise to "unhealthy"; the Telegram probe only upgrades the
initial "unknown" to "healthy" when `telegram_app.bot` is truthy. Both the
normal return and the outer `except` return a plain dict, which FastAPI serves
as HTTP 200, and both carry `status = "healthy"`. -/
def health_check (e : HealthEnv) : HealthReport :=
  if e.outerOk then
    { code := 200
    , status := "healthy"
    , services := some
        ( if e.supabaseOk then "healthy" else "unhealthy"
        , if e.redisOk then "healthy" else "unhealthy"
        , if e.telegramRaises then "unhealthy"
          else if e.telegramBotTruthy then "healthy" else "unknown" )
    , environment := some (e.envRedisUrl, e.envSupabaseUrl, e.envBotToken) }
  else
    { code := 200, status := "healthy", services := none, environment := none }

/-- An exception value flowing through the body of the `/analyze` endpoint.
`fastapi.HTTPException` subclasses `Exception`, so a broad `except Exception`
catches it like any other exception. -/
inductive PyExc where
  | httpExc (code : Nat) (detail : String)
  | exc (msg : String)
deriving Repr, DecidableEq

/-- Response of the `/analyze` endpoint as seen by the HTTP client. -/
inductive AnalyzeResp where
  | ok (symbol sentiment : String)
  | err (code : Nat)
deriving Repr, DecidableEq

/-- HTTP status code of an `/analyze` response. -/
def respCode : AnalyzeResp → Nat
  | AnalyzeResp.ok _ _ => 200
  | AnalyzeResp.err c => c

/-- The `try` body of the `analyze_sentiment` endpoint (src/app/main.py lines
115-121): `data.get("symbol")` is `none` when the field is absent; `if not
symbol` is also true for the empty string; a missing or empty symbol raises
`HTTPException(400, "Symbol is required")`; otherwise `analyzer.analyze(symbol)`
runs (its outcome is the `analyzer` argument: the analyzer source is outside
src/ and is irrelevant to the missing-symbol path, which never reaches it). -/
def analyze_body (symbol : Option String) (analyzer : Except String String) :
    Except PyExc (String × String) :=
  match symbol with
  | none => Except.error (PyExc.httpExc 400 "Symbol is required")
  | some s =>
    if s = "" then Except.error (PyExc.httpExc 400 "Symbol is required")
    else
      match analyzer with
      | Except.error m => Except.error (PyExc.exc m)
      | Except.ok sentiment => Except.ok (s, sentiment)

/-- The `analyze_sentiment` endpoint, `POST /analyze` (src/app/main.py lines
112-125). The whole body runs inside `try ... except Exception as e: raise
HTTPException(500, str(e))`. Because `HTTPException` subclasses `Exception`,
the `HTTPException(400)` raised for a missing symbol is itself caught by that
blanket handler and replaced by a 500. -/
def analyze_endpoint (symbol : Option String) (analyzer : Except String String) :
    AnalyzeResp :=
  match analyze_body symbol analyzer with
  | Except.ok (s, sent) => AnalyzeResp.ok s sent
  | Except.error _ => AnalyzeResp.err 500

-- ===========================================================================
-- Section C: src/app/services/trading_bot.py — cache and sentiment
-- ===========================================================================

/-- The Redis string cache: a list of (key, value, ttl-seconds) entries, most
recent first. Only the single-key `get`/`setex` operations of the source are
modelled; "within the time-to-live" is modelled as the entry being present. -/
abbrev CacheState := List (String × String × Nat)

/-- `redis_client.get(key)` restricted to the entries still alive. -/
def cacheGet (c : CacheState) (k : String) : Option String :=
  match c.find? (fun e => e.1 == k) with
  | some e => some e.2.1
  | none => none

/-- `redis_client.setex(key, ttl, value)`: the new entry shadows any older one. -/
def cacheSetex (c : CacheState) (k : String) (ttl : Nat) (v : String) : CacheState :=
  (k, v, ttl) :: c

deriving instance DecidableEq for Except

/-- External behaviour during one call of `TradingBot.analyze_sentiment`
(src/app/services/trading_bot.py lines 49-71): whether `redis_client.get`
raises, the outcome of the OpenAI chat completion (an error, or the list of
choice contents), and whether `redis_client.setex` raises. -/
structure SentimentEnv where
  cacheGetOk : Bool
  api : Except Unit (List String)
  setexOk : Bool
deriving Repr, DecidableEq

/-- Result of one `analyze_sentiment` call: the returned string, the cache
state afterwards, and whether a chat-completion request was issued. -/
structure SentimentResult where
  result : String
  cache : CacheState
  apiCalled : Bool
deriving Repr, DecidableEq

/-- The fixed fallback returned by the `except` branch of `analyze_sentiment`. -/
def sentimentFallback : String := "Sentiment analysis unavailable"

/-- The cache-miss path of `analyze_sentiment` (lines 57-67): issue the
completion request; `response.choices[0]` raises on an empty choice list;
`setex` stores the content under a 300-second expiry; any raise is caught by
the enclosing `except` and mapped to the fallback (the request was still
issued). -/
def sentimentFetch (symbol : String) (env : SentimentEnv) (c : CacheState) :
    SentimentResult :=
  match env.api with
  | Except.error _ => { result := sentimentFallback, cache := c, apiCalled := true }
  | Except.ok [] => { result := sentimentFallback, cache := c, apiCalled := true }
  | Except.ok (content :: _) =>
    if env.setexOk then
      { result := content
      , cache := cacheSetex c ("sentiment:" ++ symbol) 300 content
      , apiCalled := true }
    else
      { result := sentimentFallback, cache := c, apiCalled := true }

/-- `TradingBot.analyze_sentiment` (src/app/services/trading_bot.py lines
49-71). `cache_key = f"sentiment:{symbol}"`; `if cached:` is Python byte-string
truthiness, so a cached empty string is treated as a miss; a raise from
`redis_client.get` is caught by the enclosing `except` before any request is
issued. Decoding bytes to str is the identity here since values are strings. -/
def analyze_sentiment (symbol : String) (env : SentimentEnv) (c : CacheState) :
    SentimentResult :=
  if env.cacheGetOk then
    match cacheGet c ("sentiment:" ++ symbol) with
    | some s =>
      if s = "" then sentimentFetch symbol env c
      else { result := s, cache := c, apiCalled := false }
    | none => sentimentFetch symbol env c
  else
    { result := sentimentFallback, cache := c, apiCalled := false }

/-- The conditions under which the body of `analyze_sentiment` raises (and the
`except` branch returns the fallback): the cache read raises, or the call
reaches the fetch and the API raises, the choice list is empty, or the cache
store raises. -/
def fetchFails (env : SentimentEnv) : Bool :=
  match env.api with
  | Except.error _ => true
  | Except.ok [] => true
  | Except.ok (_ :: _) => !env.setexOk

/-- Failure predicate for a whole `analyze_sentiment` call. -/
def sentimentFails (symbol : String) (env : SentimentEnv) (c : CacheState) : Bool :=
  if env.cacheGetOk then
    match cacheGet c ("sentiment:" ++ symbol) with
    | some s => if s = "" then fetchFails env else false
    | none => fetchFails env
  else true

/-- Number of chat-completion requests issued by two consecutive
`analyze_sentiment` calls for the same symbol, the second running on the cache
state left by the first. -/
def sentimentTwoCallRequests (symbol : String) (env1 env2 : SentimentEnv)
    (c0 : CacheState) : Nat :=
  let r1 := analyze_sentiment symbol env1 c0
  let r2 := analyze_sentiment symbol env2 r1.cache
  (if r1.apiCalled then 1 else 0) + (if r2.apiCalled then 1 else 0)

-- ===========================================================================
-- Section D: src/app/services/trading_bot.py — signals, dispatch, callbacks
-- ===========================================================================

/-- A trading signal as consumed by the pipeline. `price` is a float in the
source and is only ever interpolated into the message text, so it is embedded
as its rendered decimal string. -/
structure Signal where
  market : String
  instrument : String
  timeframe : String
  symbol : String
  action : String
  price : String
deriving Repr, DecidableEq

/-- One row of the `signal_preferences` table. -/
structure SignalPreference where
  user_id : String
  market : String
  instrument : String
  timeframe : String
deriving Repr, DecidableEq

/-- `TradingBot.match_subscribers` (lines 35-47): the Supabase query filters the
table by equality on market, instrument and timeframe and the user ids of the
matching rows are returned; any raise from the query is caught and mapped to
the empty list. -/
def match_subscribers (signal : Signal) (db : Except Unit (List SignalPreference)) :
    List String :=
  match db with
  | Except.error _ => []
  | Except.ok rows =>
    (rows.filter fun p =>
      p.market == signal.market && p.instrument == signal.instrument &&
        p.timeframe == signal.timeframe).map (fun p => p.user_id)

/-- One inline keyboard button: display label and callback payload. -/
structure Button where
  label : String
  callback_data : String
deriving Repr, DecidableEq

/-- A message delivered to a chat by `bot.send_message`. -/
structure SentMessage where
  chat_id : String
  text : String
  keyboard : List (List Button)
deriving Repr, DecidableEq

/-- Whether `bot.send_message` succeeds for a given chat id. -/
structure SendEnv where
  sendOk : String → Bool

/-- The message text built at src/app/services/trading_bot.py lines 77-89. -/
def formatMessage (signal : Signal) (sentiment : String) : String :=
  "🔔 *TRADING SIGNAL*\n" ++
  "Symbol: " ++ signal.symbol ++ "\n" ++
  "Action: " ++ signal.action ++ "\n" ++
  "Price: " ++ signal.price ++ "\n\n" ++
  "📊 *SENTIMENT*\n" ++
  sentiment ++ "\n\n" ++
  "⚠️ *Risk Management*\n" ++
  "• Always use proper position sizing\n" ++
  "• Never risk more than 1-2% per trade\n" ++
  "• Multiple take profit levels recommended\n\n" ++
  "🤖 Generated by SigmaPips AI"

/-- The two-row inline keyboard built at lines 92-109. -/
def buildKeyboard (signal : Signal) : List (List Button) :=
  [ [ { label := "📊 Technical Analysis"
      , callback_data := "chart_" ++ signal.symbol ++ "_" ++ signal.timeframe }
    , { label := "🤖 Market Sentiment"
      , callback_data := "sentiment_" ++ signal.symbol } ]
  , [ { label := "📅 Economic Calendar"
      , callback_data := "calendar_" ++ signal.symbol } ] ]

/-- `TradingBot.send_signal_message` (lines 73-120): formats the text, builds
the keyboard and sends; the whole body is wrapped in `try ... except` that logs
and swallows any failure, so the function never raises; `some m` is the message
actually delivered, `none` means the send raised and nothing was delivered. -/
def send_signal_message (chatId : String) (signal : Signal) (sentiment : String)
    (env : SendEnv) : Option SentMessage :=
  if env.sendOk chatId then
    some { chat_id := chatId
         , text := formatMessage signal sentiment
         , keyboard := buildKeyboard signal }
  else none

/-- Environment for one `process_signal` run. -/
structure ProcessEnv where
  db : Except Unit (List SignalPreference)
  sent : SentimentEnv
  cache : CacheState
  send : SendEnv

/-- The result dict of `process_signal`, with the per-recipient send attempts
made by the dispatch loop (in order; the second component records what the
attempt delivered). -/
structure ProcessResult where
  status : String
  sent_to : Nat
  sentiment : String
  sends : List (String × Option SentMessage)
deriving Repr, DecidableEq

/-- The `for chat_id in chat_ids` dispatch loop of `process_signal` (lines
132-133): every identifier gets exactly one `send_signal_message` call, and
since that call swallows its own failures the loop always reaches the next
identifier. -/
def sendLoop (signal : Signal) (sentiment : String) (send : SendEnv) :
    List String → List (String × Option SentMessage)
  | [] => []
  | cid :: rest =>
    (cid, send_signal_message cid signal sentiment send) :: sendLoop signal sentiment send rest

/-- `TradingBot.process_signal` (lines 122-144): match subscribers, fetch the
sentiment, send to every matched chat id, and report success with
`sent_to = len(chat_ids)`. None of the three steps can raise (each swallows its
own failures), so the re-raising `except` of `process_signal` is dead and the
embedding is total. -/
def process_signal (signal : Signal) (env : ProcessEnv) : ProcessResult :=
  let chat_ids := match_subscribers signal env.db
  let s := analyze_sentiment signal.symbol env.sent env.cache
  { status := "success"
  , sent_to := chat_ids.length
  , sentiment := s.result
  , sends := sendLoop signal s.result env.send chat_ids }

/-- `ChartService.generate_chart` (src/services/chart_service.py lines 11-18):
a stub that always returns `None` and never raises. -/
def generate_chart (symbol interval : String) : Option (List Nat) := none

/-- Model of Python `str.startswith`. -/
def pyStartsWith (s pre : String) : Bool :=
  pre.data.isPrefixOf s.data

/-- A callback event as read by `handle_button_click`:
`callback_query["data"]` and `callback_query["message"]["chat"]["id"]`;
`none` models a missing key at any level (a `KeyError` on access). -/
structure CallbackQuery where
  data : Option String
  chatId : Option Int
deriving Repr, DecidableEq

/-- Whether each Telegram send inside `handle_button_click` succeeds. -/
structure CbEnv where
  sendPhotoOk : Bool
  sendApologyOk : Bool
  errSendOk : Bool
deriving Repr, DecidableEq

/-- A Telegram send attempted by `handle_button_click`. -/
inductive CbAction where
  | sendPhoto (chatId : Int) (caption : String)
  | sendMessage (chatId : Int) (text : String)
deriving Repr, DecidableEq

/-- Observable outcome of one `handle_button_click` call: the sends attempted in
order, whether `generate_chart` was invoked, and whether an exception escaped
the handler to its caller. -/
structure CbResult where
  actions : List CbAction
  chartRequested : Bool
  raised : Bool
deriving Repr, DecidableEq

/-- The apology sent when the chart generator returns nothing (line 165). -/
def apologyText : String := "❌ Sorry, could not generate chart at this time."

/-- The generic message sent by the `except` block (line 172). -/
def errorText : String := "❌ An error occurred while processing your request."

/-- The `except` block of `handle_button_click` (lines 168-173), reached with
`chat_id` bound: it sends the generic error message, and that send itself may
raise, in which case the exception escapes the handler. -/
def handleErrPath (chatId : Int) (env : CbEnv) (prior : List CbAction)
    (chartReq : Bool) : CbResult :=
  { actions := prior ++ [CbAction.sendMessage chatId errorText]
  , chartRequested := chartReq
  , raised := !env.errSendOk }

/-- `TradingBot.handle_button_click` (src/app/services/trading_bot.py lines
146-173). If `callback_query["data"]` or `["message"]["chat"]["id"]` raises a
`KeyError`, the `except` block runs before `chat_id` was bound, so its
`send_message(chat_id=chat_id, ...)` raises `NameError`: the handler raises and
nothing is sent. With both bound: a payload not starting with "chart_" takes no
branch and the handler returns silently; a "chart_"-payload is split on "_"
(a part count other than 3 raises `ValueError` into the `except` block), the
chart stub is invoked (always `None`, so the apology is sent), and any raise
from a send lands in the `except` block. -/
def handle_button_click (q : CallbackQuery) (env : CbEnv) : CbResult :=
  match q.data with
  | none => { actions := [], chartRequested := false, raised := true }
  | some data =>
    match q.chatId with
    | none => { actions := [], chartRequested := false, raised := true }
    | some chatId =>
      if pyStartsWith data "chart_" then
        match data.splitOn "_" with
        | [_, symbol, timeframe] =>
          match generate_chart symbol timeframe with
          | some _ =>
            let a := CbAction.sendPhoto chatId
              ("📊 Technical Analysis for " ++ symbol ++ " (" ++ timeframe ++ ")")
            if env.sendPhotoOk then { actions := [a], chartRequested := true, raised := false }
            else handleErrPath chatId env [a] true
          | none =>
            let a := CbAction.sendMessage chatId apologyText
            if env.sendApologyOk then { actions := [a], chartRequested := true, raised := false }
            else handleErrPath chatId env [a] true
        | _ => handleErrPath chatId env [] false
      else { actions := [], chartRequested := false, raised := false }

-- ===========================================================================
-- Helper lemmas
-- ===========================================================================

/-- Unfolding of the retry loop when every attempt fails: the loop consumes the
whole attempt list, quits once per launched browser, and returns `(None, False)`. -/
theorem captureGo_allFail (symbol : String) :
    ∀ (outcomes : List AttemptOutcome) (t : CaptureTrace),
      (∀ o ∈ outcomes, isSuccess o = false) →
      captureGo symbol outcomes t =
        ((none, false),
         { attempts := t.attempts + outcomes.length
         , launches := t.launches + countLaunches outcomes
         , quits := t.quits + countLaunches outcomes
         , urls := t.urls ++ List.replicate outcomes.length (tvUrl symbol) }) := by
  intro outcomes
  induction outcomes with
  | nil =>
    intro t _
    simp [captureGo, countLaunches]
  | cons o rest ih =>
    intro t h
    have hrest : ∀ x ∈ rest, isSuccess x = false :=
      fun x hx => h x (List.mem_cons_of_mem o hx)
    have ho : isSuccess o = false := h o (List.mem_cons_self o rest)
    cases o with
    | setupFail =>
      rw [captureGo, ih _ hrest]
      simp only [countLaunches, List.countP_cons, isLaunch, List.length_cons,
        List.replicate_succ]
      refine congrArg _ ?_
      simp [List.append_assoc]
      omega
    | captureFail =>
      rw [captureGo, ih _ hrest]
      simp only [countLaunches, List.countP_cons, isLaunch, List.length_cons,
        List.replicate_succ]
      refine congrArg _ ?_
      simp [List.append_assoc]
      omega
    | success shot =>
      simp [isSuccess] at ho

/-- The freshest `setex` entry wins on the next `get` of the same key. -/
theorem cacheGet_setex_self (c : CacheState) (k : String) (ttl : Nat) (v : String) :
    cacheGet (cacheSetex c k ttl v) k = some v := by
  simp [cacheGet, cacheSetex, List.find?]

/-- The fetch path returns the fallback whenever the body raises. -/
theorem sentimentFetch_fallback (symbol : String) (env : SentimentEnv) (c : CacheState)
    (h : fetchFails env = true) :
    (sentimentFetch symbol env c).result = sentimentFallback := by
  obtain ⟨cg, api, sx⟩ := env
  cases api with
  | error e => simp [sentimentFetch]
  | ok choices =>
    cases choices with
    | nil => simp [sentimentFetch]
    | cons content rest =>
      simp only [fetchFails, Bool.not_eq_true'] at h
      simp [sentimentFetch, h]

/-- The fetch path can only return the empty string when the first completion
choice is itself the empty string. -/
theorem sentimentFetch_empty (symbol : String) (env : SentimentEnv) (c : CacheState)
    (h : (sentimentFetch symbol env c).result = "") :
    ∃ rest, env.api = Except.ok ("" :: rest) := by
  obtain ⟨cg, api, sx⟩ := env
  cases api with
  | error e =>
    simp [sentimentFetch, sentimentFallback] at h
  | ok choices =>
    cases choices with
    | nil => simp [sentimentFetch, sentimentFallback] at h
    | cons content rest =>
      by_cases hsx : sx = true
      · subst hsx
        simp [sentimentFetch] at h
        exact ⟨rest, by simp [h]⟩
      · replace hsx : sx = false := by
          cases sx
          · rfl
          · exact absurd rfl hsx
        subst hsx
        simp [sentimentFetch, sentimentFallback] at h

/-- The dispatch loop attempts one send per identifier, in order. -/
theorem sendLoop_map_fst (signal : Signal) (sentiment : String) (send : SendEnv) :
    ∀ l : List String, (sendLoop signal sentiment send l).map Prod.fst = l := by
  intro l
  induction l with
  | nil => rfl
  | cons cid rest ih => simp [sendLoop, ih]

/-- The dispatch loop makes exactly one attempt per identifier. -/
theorem sendLoop_length (signal : Signal) (sentiment : String) (send : SendEnv) :
    ∀ l : List String, (sendLoop signal sentiment send l).length = l.length := by
  intro l
  induction l with
  | nil => rfl
  | cons cid rest ih => simp [sendLoop, ih]

-- ===========================================================================
-- Claim theorems
-- ===========================================================================

/-- Claim C4: if every capture attempt fails, `capture_tradingview_chart` makes
exactly `max_retries` attempts, invokes `driver.quit` once per attempt in which
the browser was launched (each such attempt having launched its own fresh
browser), and returns `(None, False)` rather than raising. -/
theorem capture_all_attempts_fail_spec (symbol interval theme : String)
    (max_retries : Nat) (world : Nat → AttemptOutcome)
    (hfail : ∀ i, i < max_retries → isSuccess (world i) = false) :
    capture_tradingview_chart symbol interval theme max_retries world =
      ((none, false),
       { attempts := max_retries
       , launches := countLaunches ((List.range max_retries).map world)
       , quits := countLaunches ((List.range max_retries).map world)
       , urls := List.replicate max_retries (tvUrl symbol) }) := by
  have h : ∀ o ∈ (List.range max_retries).map world, isSuccess o = false := by
    intro o ho
    rcases List.mem_map.mp ho with ⟨i, hi, rfl⟩
    exact hfail i (List.mem_range.mp hi)
  rw [capture_tradingview_chart, captureGo_allFail symbol _ _ h]
  simp

/-- Witness for C4 at the default `max_retries = 2` with both attempts failing
inside the capture phase: two attempts, two launches, two quits, `(None, False)`. -/
theorem capture_all_attempts_fail_spec_witness :
    capture_tradingview_chart "EURUSD" "1h" "dark" 2 (fun _ => AttemptOutcome.captureFail) =
      ((none, false),
       { attempts := 2
       , launches := countLaunches ((List.range 2).map (fun _ => AttemptOutcome.captureFail))
       , quits := countLaunches ((List.range 2).map (fun _ => AttemptOutcome.captureFail))
       , urls := List.replicate 2 (tvUrl "EURUSD") }) :=
  capture_all_attempts_fail_spec "EURUSD" "1h" "dark" 2 _ (fun _ _ => rfl)

/-- Claim C10: the `interval` and `theme` parameters of `GET /chart` have no
influence on the capture: for any two invocations differing only in interval
and/or theme, both `capture_tradingview_chart` (including the URLs it builds
and every step of its trace) and the `/chart` endpoint response are identical. -/
theorem capture_ignores_interval_and_theme (symbol i1 th1 i2 th2 : String)
    (max_retries : Nat) (world : Nat → AttemptOutcome) :
    capture_tradingview_chart symbol i1 th1 max_retries world =
      capture_tradingview_chart symbol i2 th2 max_retries world ∧
    get_chart symbol i1 th1 world = get_chart symbol i2 th2 world :=
  ⟨rfl, rfl⟩

/-- Claim C5: for every combination of probe outcomes, the bot `/health`
endpoint answers HTTP 200 with top-level status "healthy". -/
theorem health_check_always_healthy_200 (e : HealthEnv) :
    (health_check e).code = 200 ∧ (health_check e).status = "healthy" := by
  unfold health_check
  split
  · exact ⟨rfl, rfl⟩
  · exact ⟨rfl, rfl⟩

/-- Claim C1 (code bug): a request to `POST /analyze` with the symbol absent or
empty is answered with HTTP 500, not the 400 the spec states: the body does
raise `HTTPException(400, "Symbol is required")`, but the blanket
`except Exception` around the body catches it (HTTPException subclasses
Exception) and re-raises it as `HTTPException(500, str(e))`. -/
theorem analyze_endpoint_missing_symbol_responds_500 (analyzer : Except String String) :
    respCode (analyze_endpoint none analyzer) = 500 ∧
    respCode (analyze_endpoint (some "") analyzer) = 500 ∧
    analyze_body none analyzer = Except.error (PyExc.httpExc 400 "Symbol is required") ∧
    analyze_body (some "") analyzer = Except.error (PyExc.httpExc 400 "Symbol is required") :=
  ⟨rfl, rfl, rfl, rfl⟩

/-- Claim C2 (code bug): on a callback event with no "data" key (for example the
empty dict), the exception raised while extracting the payload reaches the
`except` block before `chat_id` was bound, so the block's own
`send_message(chat_id=chat_id, ...)` raises `NameError`: the handler sends no
message at all and raises to its caller, for every send environment. -/
theorem handle_button_click_malformed_event_raises (env : CbEnv) :
    handle_button_click { data := none, chatId := none } env =
      { actions := [], chartRequested := false, raised := true } :=
  rfl

/-- Claim C9: a well-formed callback event (payload and chat id both present)
whose payload does not start with "chart_" takes no branch of the handler: no
send is attempted, the chart generator is not invoked, and nothing is raised. -/
theorem handle_button_click_unknown_action_noop (data : String) (chatId : Int)
    (env : CbEnv) (h : pyStartsWith data "chart_" = false) :
    handle_button_click { data := some data, chatId := some chatId } env =
      { actions := [], chartRequested := false, raised := false } := by
  simp [handle_button_click, h]

/-- Witness for C9: the sentiment-request payload is ignored without side
effects even when every send would fail. -/
theorem handle_button_click_unknown_action_noop_witness :
    handle_button_click { data := some "sentiment_EURUSD", chatId := some 123 }
        { sendPhotoOk := false, sendApologyOk := false, errSendOk := false } =
      { actions := [], chartRequested := false, raised := false } :=
  handle_button_click_unknown_action_noop "sentiment_EURUSD" 123 _ (by decide)

/-- Claim C8: for every signal and sentiment string, the message rendered by
`send_signal_message` carries a two-row button grid: row one holds the
chart-request button with payload `chart_{symbol}_{timeframe}` and the
sentiment-request button with payload `sentiment_{symbol}`; row two holds the
single calendar-request button with payload `calendar_{symbol}`; the message is
delivered with exactly that keyboard when the send succeeds, and nothing is
delivered (and nothing raised) when it fails. -/
theorem send_signal_message_keyboard_grid (chatId : String) (signal : Signal)
    (sentiment : String) (env : SendEnv) :
    send_signal_message chatId signal sentiment env =
      (if env.sendOk chatId then
        some { chat_id := chatId
             , text := formatMessage signal sentiment
             , keyboard :=
                [ [ { label := "📊 Technical Analysis"
                    , callback_data := "chart_" ++ signal.symbol ++ "_" ++ signal.timeframe }
                  , { label := "🤖 Market Sentiment"
                    , callback_data := "sentiment_" ++ signal.symbol } ]
                , [ { label := "📅 Economic Calendar"
                    , callback_data := "calendar_" ++ signal.symbol } ] ] }
      else none) :=
  rfl

/-- Counterexample to claim C3 as stated: when the cache misses and the
language-model call succeeds with an empty first completion, `analyze_sentiment`
returns the empty string — the output is not "never empty". -/
theorem analyze_sentiment_empty_completion_returned :
    (analyze_sentiment "EURUSD"
        { cacheGetOk := true, api := Except.ok [""], setexOk := true } []).result = "" := by
  decide

/-- Claim C3 (amended): `analyze_sentiment` never raises; on any failure (cache
read raising, API error, empty choice list, cache store raising) it returns
exactly "Sentiment analysis unavailable"; and its result can be empty only in
the one non-failure case where the model's first completion is itself empty. -/
theorem analyze_sentiment_fallback_on_failure (symbol : String) (env : SentimentEnv)
    (c : CacheState) :
    (sentimentFails symbol env c = true →
      (analyze_sentiment symbol env c).result = sentimentFallback) ∧
    ((analyze_sentiment symbol env c).result = "" →
      ∃ rest, env.api = Except.ok ("" :: rest)) := by
  obtain ⟨cg, api, sx⟩ := env
  cases cg with
  | false =>
    constructor
    · intro _
      simp [analyze_sentiment]
    · intro h
      exfalso
      simp [analyze_sentiment, sentimentFallback] at h
  | true =>
    constructor
    · intro hf
      simp only [sentimentFails] at hf
      simp only [analyze_sentiment, if_true]
      cases hg : cacheGet c ("sentiment:" ++ symbol) with
      | none =>
        rw [hg] at hf
        simp only [if_true] at hf
        exact sentimentFetch_fallback symbol _ c hf
      | some s =>
        rw [hg] at hf
        by_cases hs : s = ""
        · simp only [hs, if_true, if_pos rfl] at hf ⊢
          exact sentimentFetch_fallback symbol _ c hf
        · simp [hs] at hf
    · intro h
      simp only [analyze_sentiment, if_true] at h
      cases hg : cacheGet c ("sentiment:" ++ symbol) with
      | none =>
        rw [hg] at h
        exact sentimentFetch_empty symbol _ c h
      | some s =>
        rw [hg] at h
        by_cases hs : s = ""
        · subst hs
          simp at h
          exact sentimentFetch_empty symbol _ c h
        · simp [hs] at h

/-- Witness for the amended C3: with the cache read raising, the fallback is
returned without any request being issued. -/
theorem analyze_sentiment_fallback_on_failure_witness :
    (analyze_sentiment "EURUSD"
        { cacheGetOk := false, api := Except.error (), setexOk := true } []).result =
      sentimentFallback :=
  (analyze_sentiment_fallback_on_failure "EURUSD" _ []).1 (by decide)

/-- Counterexample to claim C7 as stated: with an empty first completion, the
first call succeeds end to end (request, store, return), yet the stored empty
value is read back as falsy, so a second call within the cache lifetime treats
it as a miss and issues a second language-model request: two calls, two
requests, refuting "at most one". -/
theorem sentiment_cache_empty_completion_double_request :
    sentimentTwoCallRequests "EURUSD"
        { cacheGetOk := true, api := Except.ok [""], setexOk := true }
        { cacheGetOk := true, api := Except.ok [""], setexOk := true } [] = 2 ∧
    ¬ (sentimentTwoCallRequests "EURUSD"
        { cacheGetOk := true, api := Except.ok [""], setexOk := true }
        { cacheGetOk := true, api := Except.ok [""], setexOk := true } [] ≤ 1) := by
  constructor
  · decide
  · decide

/-- Claim C7 (amended): if the first call misses the cache and fetches a
non-empty sentiment with the store succeeding, it issues one request, returns
the sentiment, and stores it under `sentiment:{symbol}` with a 300-second
expiry; any second call within that lifetime issues no further request, and
when its cache read succeeds it returns the cached value decoded. (An empty
fetched sentiment is stored but read back as a miss, so it does not prevent a
second request.) -/
theorem sentiment_cache_hit_after_store (symbol content : String) (rest : List String)
    (env2 : SentimentEnv) (c0 : CacheState)
    (hne : content ≠ "")
    (hmiss : cacheGet c0 ("sentiment:" ++ symbol) = none) :
    analyze_sentiment symbol
        { cacheGetOk := true, api := Except.ok (content :: rest), setexOk := true } c0 =
      { result := content
      , cache := cacheSetex c0 ("sentiment:" ++ symbol) 300 content
      , apiCalled := true } ∧
    (analyze_sentiment symbol env2
        (cacheSetex c0 ("sentiment:" ++ symbol) 300 content)).apiCalled = false ∧
    (env2.cacheGetOk = true →
      (analyze_sentiment symbol env2
        (cacheSetex c0 ("sentiment:" ++ symbol) 300 content)).result = content) := by
  refine ⟨?_, ?_, ?_⟩
  · simp [analyze_sentiment, hmiss, sentimentFetch]
  · obtain ⟨cg2, api2, sx2⟩ := env2
    cases cg2 with
    | false => simp [analyze_sentiment]
    | true => simp [analyze_sentiment, cacheGet_setex_self, hne]
  · intro hcg
    obtain ⟨cg2, api2, sx2⟩ := env2
    simp only at hcg
    subst hcg
    simp [analyze_sentiment, cacheGet_setex_self, hne]

/-- Witness for the amended C7: after a successful first fetch of "Bullish",
a second call issues no language-model request even if the API would fail. -/
theorem sentiment_cache_hit_after_store_witness :
    (analyze_sentiment "EURUSD"
        { cacheGetOk := true, api := Except.error (), setexOk := true }
        (cacheSetex [] ("sentiment:" ++ "EURUSD") 300 "Bullish")).apiCalled = false :=
  (sentiment_cache_hit_after_store "EURUSD" "Bullish" []
    { cacheGetOk := true, api := Except.error (), setexOk := true } [] (by decide) rfl).2.1

/-- Claim C6: `process_signal` attempts one send per matched identifier, in
order and regardless of earlier per-recipient failures (which are swallowed
inside `send_signal_message`); it reports `sent_to` equal to the number of
recipients attempted and status "success"; with zero matching preference rows
it sends nothing and reports `sent_to = 0` without error. -/
theorem process_signal_attempts_all_and_reports_count (signal : Signal) (env : ProcessEnv) :
    (process_signal signal env).sends.map Prod.fst = match_subscribers signal env.db ∧
    (process_signal signal env).sent_to = (match_subscribers signal env.db).length ∧
    (process_signal signal env).sent_to = (process_signal signal env).sends.length ∧
    (process_signal signal env).status = "success" ∧
    (match_subscribers signal env.db = [] →
      (process_signal signal env).sent_to = 0 ∧ (process_signal signal env).sends = []) := by
  refine ⟨?_, rfl, ?_, rfl, ?_⟩
  · simp [process_signal, sendLoop_map_fst]
  · simp [process_signal, sendLoop_length]
  · intro h
    simp [process_signal, h, sendLoop]

/-- Witness for C6: the scenario signal with zero matching preference rows is
dispatched to nobody, with `sent_to = 0` and no send attempts. -/
theorem process_signal_attempts_all_and_reports_count_witness :
    (process_signal
        { market := "forex", instrument := "EURUSD", timeframe := "1h"
        , symbol := "EURUSD", action := "BUY", price := "1.0850" }
        { db := Except.ok []
        , sent := { cacheGetOk := true, api := Except.ok ["Bullish"], setexOk := true }
        , cache := []
        , send := { sendOk := fun _ => true } }).sent_to = 0 ∧
    (process_signal
        { market := "forex", instrument := "EURUSD", timeframe := "1h"
        , symbol := "EURUSD", action := "BUY", price := "1.0850" }
        { db := Except.ok []
        , sent := { cacheGetOk := true, api := Except.ok ["Bullish"], setexOk := true }
        , cache := []
        , send := { sendOk := fun _ => true } }).sends = [] :=
  (process_signal_attempts_all_and_reports_count _ _).2.2.2.2 rfl
